import Mathlib

/-!
Verification of the notus-platform repository: a shallow embedding of
`src/runpod-template/handler.py` (prompt formatter and response builder)
and `src/server/openmanus_bridge.py` (task forwarder HTTP bridge),
with theorems settling the specification's claims.

External dependencies (the vLLM engine, the OpenManus agent, the file
system) are modelled as explicit function arguments, so every theorem
quantifies over all possible behaviours of those collaborators.
-/

namespace Notus

/-- JSON-like value, modelling arbitrary Python values appearing in the
job input dictionary (numbers as rationals; no arithmetic is performed
on them by the handler, only lookup and pass-through). -/
inductive Value : Type
| str : String → Value
| num : ℚ → Value
| bool : Bool → Value
| strList : List String → Value
| null : Value
deriving DecidableEq

/-- A chat message dict. Python dicts may lack the `role` or `content`
keys, hence both fields are `Option` (`msg.get("role", "user")` and
`msg.get("content", "")` supply the defaults in the code). -/
structure Message : Type where
  role : Option String
  content : Option String
deriving DecidableEq

/-- Effective role of a message: `msg.get("role", "user")`. -/
def effRole (m : Message) : String := m.role.getD "user"

/-- Effective content of a message: `msg.get("content", "")`. -/
def effContent (m : Message) : String := m.content.getD ""

/-- The segment appended to `prompt_parts` for one message in
`generate_response` (handler.py lines 56-65): a role-tagged block for
the three recognized roles, nothing otherwise. -/
def msgSegment (m : Message) : Option String :=
  let role := effRole m
  let content := effContent m
  if role = "system" then some ("<|system|>\n" ++ content ++ "</s>")
  else if role = "user" then some ("<|user|>\n" ++ content ++ "</s>")
  else if role = "assistant" then some ("<|assistant|>\n" ++ content ++ "</s>")
  else none

/-- Python `"".join`, as plain list concatenation. -/
def joinAll : List String → String
| [] => ""
| s :: rest => s ++ joinAll rest

/-- The `prompt_parts` list built by the loop in `generate_response`. -/
def promptParts (messages : List Message) : List String :=
  messages.filterMap msgSegment

/-- The full rendered prompt: the per-message parts, then the trailing
open assistant marker, joined with the empty separator
(handler.py lines 67-69). -/
def buildPrompt (messages : List Message) : String :=
  joinAll (promptParts messages ++ ["<|assistant|>\n"])

/- Specification-side reformulation used to express claims about the
prompt shape (the theorems compare it with `buildPrompt`). -/

/-- The three recognized roles, in the spec's order. -/
def recognizedRoles : List String := ["system", "user", "assistant"]

/-- Whether a message's effective role is recognized. -/
def isRecognized (m : Message) : Bool :=
  decide (effRole m ∈ recognizedRoles)

/-- Spec-side uniform rendering of one role-delimited segment:
role tag, newline, content, end-of-turn marker. -/
def specSegment (m : Message) : String :=
  "<|" ++ effRole m ++ "|>\n" ++ effContent m ++ "</s>"

/-- Sampling parameters handed to the engine (the `SamplingParams`
constructed in `generate_response`, lines 72-80). -/
structure SamplingParams : Type where
  temperature : Value
  top_p : Value
  top_k : Value
  max_tokens : Value
  stop : Value
  presence_penalty : Value
  frequency_penalty : Value
deriving DecidableEq

/-- The `params` dict passed from `handler` to `generate_response`;
each key may in principle be absent, hence `Option` fields
(`params.get(key, default)` in the code). -/
structure ParamsDict : Type where
  temperature : Option Value
  top_p : Option Value
  top_k : Option Value
  max_tokens : Option Value
  stop : Option Value
  presence_penalty : Option Value
  frequency_penalty : Option Value
deriving DecidableEq

/-- Default stop sequences `["</s>", "<|user|>", "<|system|>"]`. -/
def defaultStop : Value :=
  Value.strList ["</s>", "<|user|>", "<|system|>"]

/-- The `SamplingParams(...)` construction in `generate_response`
(lines 72-80): each field from `params` or its documented default. -/
def mkSamplingParams (params : ParamsDict) : SamplingParams :=
  { temperature := params.temperature.getD (Value.num 0.7)
    top_p := params.top_p.getD (Value.num 0.9)
    top_k := params.top_k.getD (Value.num 50)
    max_tokens := params.max_tokens.getD (Value.num 2048)
    stop := params.stop.getD defaultStop
    presence_penalty := params.presence_penalty.getD (Value.num 0)
    frequency_penalty := params.frequency_penalty.getD (Value.num 0) }

/-- One engine result (the single element of `llm.generate`'s output):
the fields `generate_response` reads, including the engine-reported
finish reason, which the code never consults. -/
structure EngineOutput : Type where
  request_id : String
  prompt_token_ids : List Nat
  text : String
  token_ids : List Nat
  engineFinishReason : String
deriving DecidableEq

/-- The generation engine, abstractly: prompt and sampling parameters
in, one output. Quantifying over this models all engine behaviours. -/
def Engine : Type := String → SamplingParams → EngineOutput

/-- `choices[i].message` of the response. -/
structure ChoiceMessage : Type where
  role : String
  content : String
deriving DecidableEq

/-- One element of the `choices` array of the response. -/
structure Choice : Type where
  index : Nat
  message : ChoiceMessage
  finish_reason : String
deriving DecidableEq

/-- The `usage` object of the response. -/
structure Usage : Type where
  prompt_tokens : Nat
  completion_tokens : Nat
  total_tokens : Nat
deriving DecidableEq

/-- The OpenAI-compatible response dict built by `generate_response`. -/
structure ChatResponse : Type where
  id : String
  object : String
  model : String
  choices : List Choice
  usage : Usage
deriving DecidableEq

/-- The `MODEL_NAME` fallback (the environment variable's default). -/
def MODEL_NAME : String := "nvidia/NVIDIA-Nemotron-3-Nano-30B-A3B-BF16"

/-- `generate_response` (handler.py lines 43-110): renders the prompt,
builds the sampling parameters, invokes the engine on a single-item
batch, and maps the output into the fixed response envelope. -/
def generate_response (messages : List Message) (params : ParamsDict)
    (engine : Engine) : ChatResponse :=
  let prompt := buildPrompt messages
  let sampling_params := mkSamplingParams params
  let out := engine prompt sampling_params
  let generated_text := out.text.trim
  let prompt_tokens := out.prompt_token_ids.length
  let completion_tokens := out.token_ids.length
  { id := "notus-" ++ out.request_id
    object := "chat.completion"
    model := MODEL_NAME
    choices := [{ index := 0
                  message := { role := "assistant", content := generated_text }
                  finish_reason := "stop" }]
    usage := { prompt_tokens := prompt_tokens
               completion_tokens := completion_tokens
               total_tokens := prompt_tokens + completion_tokens } }

/-- The `input` field of a job: `messages` plus the seven optional
generation parameters, every key possibly absent. -/
structure JobInput : Type where
  messages : Option (List Message)
  temperature : Option Value
  max_tokens : Option Value
  top_p : Option Value
  top_k : Option Value
  stop : Option Value
  presence_penalty : Option Value
  frequency_penalty : Option Value
deriving DecidableEq

/-- A job input with every key absent: `job.get("input", {})`'s
fallback empty dict. -/
def emptyJobInput : JobInput :=
  { messages := none, temperature := none, max_tokens := none
    top_p := none, top_k := none, stop := none
    presence_penalty := none, frequency_penalty := none }

/-- A RunPod job: possibly lacking the `input` key. -/
structure Job : Type where
  input : Option JobInput
deriving DecidableEq

/-- The `params` dict the handler builds (handler.py lines 141-149):
every one of the seven keys present, holding the input's value or the
default. -/
def handlerParams (job_input : JobInput) : ParamsDict :=
  { temperature := some (job_input.temperature.getD (Value.num 0.7))
    max_tokens := some (job_input.max_tokens.getD (Value.num 2048))
    top_p := some (job_input.top_p.getD (Value.num 0.9))
    top_k := some (job_input.top_k.getD (Value.num 50))
    stop := some (job_input.stop.getD defaultStop)
    presence_penalty := some (job_input.presence_penalty.getD (Value.num 0))
    frequency_penalty := some (job_input.frequency_penalty.getD (Value.num 0)) }

/-- A handler return value: either the chat response or the structured
error dict `{"error": ...}`. -/
inductive HandlerResult : Type
| ok : ChatResponse → HandlerResult
| error : String → HandlerResult
deriving DecidableEq

/-- `handler` (handler.py lines 113-158): extract messages, reject the
empty list with a structured error, otherwise default the parameters
and delegate to `generate_response`. -/
def handler (job : Job) (engine : Engine) : HandlerResult :=
  let job_input := job.input.getD emptyJobInput
  let messages := job_input.messages.getD []
  if messages.isEmpty then
    HandlerResult.error "No messages provided in request"
  else
    HandlerResult.ok (generate_response messages (handlerParams job_input) engine)

/-- The sampling parameters the engine effectively receives for a given
job input: the handler's defaulting composed with
`generate_response`'s defaulting. -/
def effectiveSampling (job_input : JobInput) : SamplingParams :=
  mkSamplingParams (handlerParams job_input)

/-! Embedding of `src/server/openmanus_bridge.py` (task forwarder). -/

/-- The fixed workspace directory scanned by `execute_task`. -/
def workspace_path : String := "/home/ubuntu/OpenManus/workspace"

/-- The body of a bridge request (`TaskRequest` pydantic model). -/
structure TaskRequest : Type where
  task : String
  task_type : String
deriving DecidableEq

/-- An arbitrary Python object returned by `agent.run`: its `str(...)`
form and its truthiness (the code never inspects it otherwise). -/
structure AgentResult : Type where
  toStr : String
  truthy : Bool

/-- The agent's asynchronous run entry point, abstractly: a task string
in; either a result object, or a raised exception carrying a message. -/
def AgentRun : Type := String → Except String AgentResult

/-- The state of the workspace directory at request time:
whether it exists, its entries in listing order, and which full paths
are regular files. -/
structure FileSystem : Type where
  workspaceExists : Bool
  entries : List String
  isFile : String → Bool

/-- The `TaskResponse` pydantic model of the bridge. -/
structure TaskResponse : Type where
  success : Bool
  result : Option String
  error : Option String
  files : List String
deriving DecidableEq

/-- The outcome of one HTTP endpoint call: a normal (HTTP success)
response body, or a raised `HTTPException` with status code and
detail message. -/
inductive EndpointResult (α : Type) : Type
| ok : α → EndpointResult α
| httpError : Nat → String → EndpointResult α

/-- The file-listing loop of `execute_task` (bridge lines 78-86):
if the workspace directory exists, the full path of every immediate
entry that is a regular file, in listing order; otherwise no files. -/
def workspaceFiles (fs : FileSystem) : List String :=
  if fs.workspaceExists then
    fs.entries.filterMap (fun file =>
      let file_path := workspace_path ++ "/" ++ file
      if fs.isFile file_path then some file_path else none)
  else []

/-- `execute_task` (bridge lines 64-98): fail with HTTP 500 when the
agent is uninitialized; run the agent, stringify a truthy result or
substitute "Task completed", list the workspace files, and return a
success body; convert a raised exception into a `success := false`
body with the exception message. -/
def execute_task (agent : Option AgentRun) (request : TaskRequest)
    (fs : FileSystem) : EndpointResult TaskResponse :=
  match agent with
  | none => EndpointResult.httpError 500 "Agent not initialized"
  | some run =>
    match run request.task with
    | Except.ok result =>
        let result_text := if result.truthy then result.toStr else "Task completed"
        EndpointResult.ok
          { success := true
            result := some result_text
            error := none
            files := workspaceFiles fs }
    | Except.error e =>
        EndpointResult.ok
          { success := false
            result := none
            error := some e
            files := [] }

/-- The response body of the `/chat` endpoint. -/
structure ChatBody : Type where
  success : Bool
  response : String
deriving DecidableEq

/-- `chat` (bridge lines 100-115): same agent call as `execute_task`,
but a raised exception is re-raised as an HTTP 500 fault rather than
returned as a structured body, and no file listing is performed. -/
def chat (agent : Option AgentRun) (request : TaskRequest) :
    EndpointResult ChatBody :=
  match agent with
  | none => EndpointResult.httpError 500 "Agent not initialized"
  | some run =>
    match run request.task with
    | Except.ok result =>
        EndpointResult.ok { success := true, response := result.toStr }
    | Except.error e => EndpointResult.httpError 500 e

/-! Helper lemmas. -/

/-- Joining a concatenation of part lists concatenates the joins. -/
theorem joinAll_append (l₁ l₂ : List String) :
    joinAll (l₁ ++ l₂) = joinAll l₁ ++ joinAll l₂ := by
  induction l₁ with
  | nil => simp [joinAll]
  | cons s rest ih => simp [joinAll, ih, String.append_assoc]

/-- On a message with a recognized effective role, the code's segment
is the spec's uniform role-delimited segment. -/
theorem msgSegment_of_recognized (m : Message) (h : isRecognized m = true) :
    msgSegment m = some (specSegment m) := by
  have h' : effRole m ∈ recognizedRoles := by
    simpa [isRecognized] using h
  simp only [recognizedRoles, List.mem_cons, List.mem_singleton,
    List.not_mem_nil, or_false] at h'
  rcases h' with h' | h' | h' <;>
    simp [msgSegment, specSegment, h']

/-- On a message with an unrecognized effective role, the code emits
no segment. -/
theorem msgSegment_of_unrecognized (m : Message) (h : isRecognized m = false) :
    msgSegment m = none := by
  have h1 : ¬ effRole m ∈ recognizedRoles := by
    simpa [isRecognized] using h
  simp only [recognizedRoles, List.mem_cons, List.mem_singleton,
    List.not_mem_nil, or_false, not_or] at h1
  simp [msgSegment, h1.1, h1.2.1, h1.2.2]

/-- The prompt-part list equals the recognized messages rendered with
the uniform spec template, in input order. -/
theorem promptParts_eq (messages : List Message) :
    promptParts messages = (messages.filter isRecognized).map specSegment := by
  induction messages with
  | nil => simp [promptParts]
  | cons m rest ih =>
    by_cases h : isRecognized m = true
    · simp only [promptParts, List.filterMap_cons] at *
      rw [msgSegment_of_recognized m h]
      simp [List.filter_cons, h, ih]
    · have h' : isRecognized m = false := by simpa using h
      simp only [promptParts, List.filterMap_cons] at *
      rw [msgSegment_of_unrecognized m h']
      simp [List.filter_cons, h', ih]

/-- Filtering the mapped list is the same as the filterMap-with-test
loop shape used by the bridge's file listing. -/
theorem filterMap_if_eq_filter_map {α β : Type} (g : α → β) (p : β → Bool)
    (l : List α) :
    l.filterMap (fun a => if p (g a) then some (g a) else none)
      = (l.map g).filter p := by
  induction l with
  | nil => simp
  | cons a rest ih =>
    by_cases h : p (g a) = true
    · simp [List.filterMap_cons, List.filter_cons, h, ih]
    · have h' : p (g a) = false := by simpa using h
      simp [List.filterMap_cons, List.filter_cons, h', ih]

/-! Concrete collaborators used by witness theorems. -/

/-- A trivial engine, used only to instantiate theorems. -/
def dummyEngine : Engine := fun _ _ =>
  { request_id := "req-1", prompt_token_ids := [1, 2], text := " hi "
    token_ids := [3], engineFinishReason := "length" }

/-- A sample message list with one recognized message. -/
def sampleMessages : List Message :=
  [{ role := some "user", content := some "Hello" }]

/-! Claim theorems. -/

/-- C1: for every input message list containing at least one message of
recognized effective role, the rendered prompt is exactly the
role-delimited segments of the recognized messages, in input order,
concatenated with no separator, followed by the trailing open
assistant marker; in particular the prompt ends with that marker. -/
theorem c1_prompt_shape (messages : List Message)
    (_h : ∃ m ∈ messages, isRecognized m = true) :
    buildPrompt messages
        = joinAll ((messages.filter isRecognized).map specSegment)
            ++ "<|assistant|>\n"
      ∧ ∃ p, buildPrompt messages = p ++ "<|assistant|>\n" := by
  have key : buildPrompt messages
      = joinAll ((messages.filter isRecognized).map specSegment)
          ++ "<|assistant|>\n" := by
    rw [buildPrompt, joinAll_append, promptParts_eq]
    simp [joinAll, String.append_empty]
  exact ⟨key, ⟨joinAll ((messages.filter isRecognized).map specSegment), key⟩⟩

/-- C1 witness: the theorem applied to a concrete one-message list. -/
theorem c1_prompt_shape_witness :
    buildPrompt sampleMessages
        = joinAll ((sampleMessages.filter isRecognized).map specSegment)
            ++ "<|assistant|>\n"
      ∧ ∃ p, buildPrompt sampleMessages = p ++ "<|assistant|>\n" :=
  c1_prompt_shape sampleMessages
    ⟨{ role := some "user", content := some "Hello" }, by decide, by decide⟩

/-- C4: a message with an unrecognized effective role contributes no
segment: deleting it from the input leaves the rendered prompt
unchanged, wherever it occurs. -/
theorem c4_unrecognized_dropped (pre post : List Message) (m : Message)
    (h : isRecognized m = false) :
    buildPrompt (pre ++ m :: post) = buildPrompt (pre ++ post) := by
  simp only [buildPrompt, promptParts, List.filterMap_append,
    List.filterMap_cons, msgSegment_of_unrecognized m h]

/-- C4 witness: a message with role "tool" between two user messages
changes nothing. -/
theorem c4_unrecognized_dropped_witness :
    buildPrompt (sampleMessages
        ++ { role := some "tool", content := some "x" }
          :: [{ role := some "assistant", content := some "Hi!" }])
      = buildPrompt (sampleMessages
          ++ [{ role := some "assistant", content := some "Hi!" }]) :=
  c4_unrecognized_dropped sampleMessages
    [{ role := some "assistant", content := some "Hi!" }]
    { role := some "tool", content := some "x" } (by decide)

/-- C9: a message dict lacking the role key is treated as role "user"
and contributes a user-tagged segment (it is not dropped); a message
lacking the content key, when its effective role is recognized,
contributes a segment with empty content. -/
theorem c9_missing_keys (m : Message) :
    (m.role = none →
        msgSegment m = some ("<|user|>\n" ++ effContent m ++ "</s>"))
      ∧ (m.content = none → isRecognized m = true →
          msgSegment m = some ("<|" ++ effRole m ++ "|>\n" ++ "</s>")) := by
  constructor
  · intro h
    simp [msgSegment, effRole, h]
  · intro hc hr
    rw [msgSegment_of_recognized m hr]
    simp [specSegment, effContent, hc]

/-- C9 witness: the theorem applied to a message with no role key and
to a system message with no content key. -/
theorem c9_missing_keys_witness :
    msgSegment { role := none, content := some "Hello" }
        = some ("<|user|>\n"
            ++ effContent { role := none, content := some "Hello" } ++ "</s>")
      ∧ msgSegment { role := some "system", content := none }
          = some ("<|" ++ effRole { role := some "system", content := none }
              ++ "|>\n" ++ "</s>") :=
  ⟨(c9_missing_keys { role := none, content := some "Hello" }).1 rfl,
   (c9_missing_keys { role := some "system", content := none }).2 rfl (by decide)⟩

/-- C2: a job whose input has an empty or absent messages list is
answered with exactly the structured error object
`{"error": "No messages provided in request"}`; the result is the
same for every engine, so the generation engine is never consulted,
and the model's `handler` is a total function, so no exception is
raised. -/
theorem c2_empty_messages (job : Job) (engine : Engine)
    (h : (job.input.getD emptyJobInput).messages = none
        ∨ (job.input.getD emptyJobInput).messages = some []) :
    handler job engine = HandlerResult.error "No messages provided in request"
      ∧ ∀ engine₂ : Engine, handler job engine = handler job engine₂ := by
  have key : ∀ e : Engine,
      handler job e = HandlerResult.error "No messages provided in request" := by
    intro e
    rcases h with h | h <;> simp [handler, h]
  exact ⟨key engine, fun engine₂ => (key engine).trans (key engine₂).symm⟩

/-- C2 witness: the theorem applied to a job with no input field. -/
theorem c2_empty_messages_witness :
    handler { input := none } dummyEngine
        = HandlerResult.error "No messages provided in request"
      ∧ ∀ engine₂ : Engine,
          handler { input := none } dummyEngine
            = handler { input := none } engine₂ :=
  c2_empty_messages { input := none } dummyEngine (Or.inl rfl)

/-- C3: the sampling parameters the engine receives are exactly
`effectiveSampling`, and each of its seven fields is the job input's
value when the key is present and the documented default when it is
absent (`Option.getD` states both cases at once); no range check
intervenes. The first conjunct shows `generate_response`, as invoked
by `handler`, calls the engine with `effectiveSampling job_input`:
replacing the engine by one that ignores the parameter argument and
uses that object changes nothing. -/
theorem c3_parameter_defaults (job_input : JobInput) :
    (∀ (engine : Engine) (messages : List Message),
        generate_response messages (handlerParams job_input) engine
          = generate_response messages (handlerParams job_input)
              (fun prompt _ => engine prompt (effectiveSampling job_input)))
      ∧ (effectiveSampling job_input).temperature
          = job_input.temperature.getD (Value.num 0.7)
      ∧ (effectiveSampling job_input).top_p
          = job_input.top_p.getD (Value.num 0.9)
      ∧ (effectiveSampling job_input).top_k
          = job_input.top_k.getD (Value.num 50)
      ∧ (effectiveSampling job_input).max_tokens
          = job_input.max_tokens.getD (Value.num 2048)
      ∧ (effectiveSampling job_input).stop
          = job_input.stop.getD defaultStop
      ∧ (effectiveSampling job_input).presence_penalty
          = job_input.presence_penalty.getD (Value.num 0)
      ∧ (effectiveSampling job_input).frequency_penalty
          = job_input.frequency_penalty.getD (Value.num 0) :=
  ⟨fun _ _ => rfl, rfl, rfl, rfl, rfl, rfl, rfl, rfl⟩

/-- C6: every successful response carries exactly one choice, whose
`finish_reason` is the literal "stop"; overwriting the
engine-reported finish reason with any string changes nothing, so
the field is independent of the engine's termination cause. -/
theorem c6_finish_reason_stop (messages : List Message) (params : ParamsDict)
    (engine : Engine) :
    (generate_response messages params engine).choices.map Choice.finish_reason
        = ["stop"]
      ∧ ∀ r : String,
          generate_response messages params
              (fun prompt sp =>
                { engine prompt sp with engineFinishReason := r })
            = generate_response messages params engine :=
  ⟨rfl, fun _ => rfl⟩

/-- C7: the usage object reports the lengths of the engine's prompt and
completion token sequences, and its total is exactly their sum. -/
theorem c7_usage_totals (messages : List Message) (params : ParamsDict)
    (engine : Engine) :
    ((generate_response messages params engine).usage.total_tokens
        = (generate_response messages params engine).usage.prompt_tokens
            + (generate_response messages params engine).usage.completion_tokens)
      ∧ (generate_response messages params engine).usage.prompt_tokens
          = (engine (buildPrompt messages)
              (mkSamplingParams params)).prompt_token_ids.length
      ∧ (generate_response messages params engine).usage.completion_tokens
          = (engine (buildPrompt messages)
              (mkSamplingParams params)).token_ids.length :=
  ⟨rfl, rfl, rfl⟩

/-! Concrete collaborators for the bridge witnesses. -/

/-- A request used only to instantiate bridge theorems. -/
def sampleRequest : TaskRequest := { task := "list files", task_type := "general" }

/-- A file system with no workspace directory. -/
def emptyFS : FileSystem :=
  { workspaceExists := false, entries := [], isFile := fun _ => false }

/-- A file system whose workspace holds one regular file and one
subdirectory. -/
def sampleFS : FileSystem :=
  { workspaceExists := true
    entries := ["a.txt", "sub"]
    isFile := fun p => p = workspace_path ++ "/" ++ "a.txt" }

/-- C5: when the agent's run raises, `/execute` answers with a normal
response body `{success := false, error := the message, result := none,
files := []}`, while `/chat` under the identical condition raises an
HTTP 500 fault carrying the message. -/
theorem c5_error_asymmetry (run : AgentRun) (request : TaskRequest)
    (fs : FileSystem) (msg : String)
    (h : run request.task = Except.error msg) :
    execute_task (some run) request fs
        = EndpointResult.ok
            { success := false, result := none, error := some msg, files := [] }
      ∧ chat (some run) request = EndpointResult.httpError 500 msg := by
  constructor
  · simp [execute_task, h]
  · simp [chat, h]

/-- C5 witness: the theorem applied to an agent that always raises. -/
theorem c5_error_asymmetry_witness :
    execute_task (some (fun _ => Except.error "boom")) sampleRequest emptyFS
        = EndpointResult.ok
            { success := false, result := none
              error := some "boom", files := [] }
      ∧ chat (some (fun _ => Except.error "boom")) sampleRequest
          = EndpointResult.httpError 500 "boom" :=
  c5_error_asymmetry (fun _ => Except.error "boom") sampleRequest emptyFS
    "boom" rfl

/-- C8: when the agent's run completes, `/execute` answers success with
the stringified result when the result object is truthy, and with the
literal "Task completed" when it is falsy. -/
theorem c8_result_text (run : AgentRun) (request : TaskRequest)
    (fs : FileSystem) (res : AgentResult)
    (h : run request.task = Except.ok res) :
    (res.truthy = true →
        execute_task (some run) request fs
          = EndpointResult.ok
              { success := true, result := some res.toStr
                error := none, files := workspaceFiles fs })
      ∧ (res.truthy = false →
          execute_task (some run) request fs
            = EndpointResult.ok
                { success := true, result := some "Task completed"
                  error := none, files := workspaceFiles fs }) := by
  constructor <;> intro ht <;> simp [execute_task, h, ht]

/-- C8 witness: the theorem applied to a truthy result and to a falsy
(empty-string) result. -/
theorem c8_result_text_witness :
    execute_task (some (fun _ => Except.ok { toStr := "done", truthy := true }))
        sampleRequest emptyFS
      = EndpointResult.ok
          { success := true, result := some "done"
            error := none, files := workspaceFiles emptyFS }
      ∧ execute_task
            (some (fun _ => Except.ok { toStr := "", truthy := false }))
            sampleRequest emptyFS
          = EndpointResult.ok
              { success := true, result := some "Task completed"
                error := none, files := workspaceFiles emptyFS } :=
  ⟨(c8_result_text (fun _ => Except.ok { toStr := "done", truthy := true })
      sampleRequest emptyFS { toStr := "done", truthy := true } rfl).1 rfl,
   (c8_result_text (fun _ => Except.ok { toStr := "", truthy := false })
      sampleRequest emptyFS { toStr := "", truthy := false } rfl).2 rfl⟩

/-- C10: when the agent's run completes, `/execute` answers success
even if the workspace directory is missing — then with an empty file
list and no error — and when the directory exists, the file list is
exactly the full paths of its immediate entries that are regular
files, subdirectories excluded. -/
theorem c10_workspace_listing (run : AgentRun) (request : TaskRequest)
    (fs : FileSystem) (res : AgentResult)
    (h : run request.task = Except.ok res) :
    ∃ tr : TaskResponse,
      execute_task (some run) request fs = EndpointResult.ok tr
        ∧ tr.success = true
        ∧ tr.error = none
        ∧ (fs.workspaceExists = false → tr.files = [])
        ∧ (fs.workspaceExists = true →
            tr.files = (fs.entries.map
                (fun file => workspace_path ++ "/" ++ file)).filter fs.isFile) := by
  refine ⟨{ success := true
            result := some (if res.truthy then res.toStr else "Task completed")
            error := none
            files := workspaceFiles fs }, ?_, rfl, rfl, ?_, ?_⟩
  · simp [execute_task, h]
  · intro hw
    simp [workspaceFiles, hw]
  · intro hw
    simp only [workspaceFiles, hw, if_true]
    exact filterMap_if_eq_filter_map
      (fun file => workspace_path ++ "/" ++ file) fs.isFile fs.entries

/-- C10 witness: the theorem applied to a workspace holding one regular
file and one subdirectory. -/
theorem c10_workspace_listing_witness :
    ∃ tr : TaskResponse,
      execute_task (some (fun _ => Except.ok { toStr := "ok", truthy := true }))
          sampleRequest sampleFS
        = EndpointResult.ok tr
        ∧ tr.success = true
        ∧ tr.error = none
        ∧ (sampleFS.workspaceExists = false → tr.files = [])
        ∧ (sampleFS.workspaceExists = true →
            tr.files = (sampleFS.entries.map
                (fun file => workspace_path ++ "/" ++ file)).filter
                sampleFS.isFile) :=
  c10_workspace_listing (fun _ => Except.ok { toStr := "ok", truthy := true })
    sampleRequest sampleFS { toStr := "ok", truthy := true } rfl

end Notus
